import Mathlib

/-!
Shallow embedding of the DCF metrics engine (calculate_metrics.py) and the
assumption validator (validate_assumptions.py), with theorems settling the
specification claims about them.  Numbers are modelled as rationals; Python
`None` becomes `Option.none`; Python dictionaries become association lists.
-/

namespace DCF

/-- Python truthiness of an optional number: `None` and `0` are falsy. -/
def truthy : Option ℚ → Bool
  | none => false
  | some x => decide (x ≠ 0)

/-- Python `a or b` on optional numbers: returns `a` when `a` is truthy,
otherwise `b`. -/
def pyOr (a b : Option ℚ) : Option ℚ :=
  if truthy a then a else b

/-- A key of a line item's `values` map: the year may be stored as an
integer key or as its decimal string form. -/
inductive YKey
  | ikey (n : Int)
  | skey (s : String)
deriving DecidableEq

/-- The `values` map of one line item. -/
abbrev ValuesMap := List (YKey × ℚ)

/-- One statement: a map from line-item names to their `values` maps
(the intermediate `\x7bname, unit, values\x7d` record is collapsed to its
`values` component, the only part the calculator reads). -/
abbrev Statement := List (String × ValuesMap)

/-- Embeds `MetricsCalculator._get_value`: try the integer year key, and
fall back (Python `or`, so also on a stored value of exactly 0) to the
decimal-string key. -/
def getValue (statement : Statement) (lineItem : String) (year : Int) : Option ℚ :=
  let values := (statement.lookup lineItem).getD []
  pyOr (values.lookup (YKey.ikey year)) (values.lookup (YKey.skey (toString year)))

/-- Embeds `MetricsCalculator._safe_divide`. -/
def safeDivide (numerator denominator : Option ℚ) : Option ℚ :=
  match numerator, denominator with
  | some n, some d => if d = 0 then none else some (n / d)
  | _, _ => none

/-- Embeds `MetricsCalculator._calc_growth`. -/
def calcGrowth (current prior : Option ℚ) : Option ℚ :=
  match current, prior with
  | some c, some p => if p = 0 then none else some ((c - p) / |p|)
  | _, _ => none

/-- Embeds `MetricsCalculator._avg`: when either operand is `None` the
result is Python `value1 or value2`, otherwise the arithmetic mean. -/
def avg (value1 value2 : Option ℚ) : Option ℚ :=
  match value1, value2 with
  | some v1, some v2 => some ((v1 + v2) / 2)
  | _, _ => pyOr value1 value2

/-- Sort years newest-first, as `MetricsCalculator.__init__` does with
`sorted(..., reverse=True)`. -/
def sortYearsDesc (ys : List Int) : List Int :=
  ys.insertionSort (fun a b => a ≥ b)

/-- The state of a `MetricsCalculator`: the descending year list and the
three statements. -/
structure MetricsCalculator where
  years : List Int := []
  income : Statement := []
  balance : Statement := []
  cashflow : Statement := []
deriving DecidableEq

/-- Embeds `MetricsCalculator.__init__` from the parsed-data years and
statements (the year list is sorted descending). -/
def mkCalculator (rawYears : List Int) (income balance cashflow : Statement) :
    MetricsCalculator :=
  { years := sortYearsDesc rawYears
    income := income
    balance := balance
    cashflow := cashflow }

/-- One growth series of `calculate_growth_metrics`: for each year except
the oldest (the years list is descending, so `years[:-1]` zipped with
`years[1:]`), the growth of the given income-statement line item. -/
def growthEntries (c : MetricsCalculator) (lineItem : String) :
    List (Int × Option ℚ) :=
  (c.years.zip c.years.tail).map fun yp =>
    (yp.1, calcGrowth (getValue c.income lineItem yp.1)
                      (getValue c.income lineItem yp.2))

/-- The four growth series computed by `calculate_growth_metrics`. -/
structure GrowthMetrics where
  revenue_growth : List (Int × Option ℚ)
  gross_profit_growth : List (Int × Option ℚ)
  ebit_growth : List (Int × Option ℚ)
  net_income_growth : List (Int × Option ℚ)
deriving DecidableEq

/-- Embeds `calculate_growth_metrics`. -/
def calculateGrowthMetrics (c : MetricsCalculator) : GrowthMetrics :=
  { revenue_growth := growthEntries c "revenue"
    gross_profit_growth := growthEntries c "gross_profit"
    ebit_growth := growthEntries c "operating_income"
    net_income_growth := growthEntries c "net_income" }

/-- The effective tax rate used for NOPAT in `calculate_return_metrics`:
`safe_divide(income_tax, pretax_income)` when pretax income is truthy and
positive, else the fixed fallback 25 percent. -/
def effTaxFor (c : MetricsCalculator) (year : Int) : Option ℚ :=
  let tax_rate := getValue c.income "income_tax" year
  let pretax := getValue c.income "pretax_income" year
  match pretax with
  | some p => if p > 0 then safeDivide tax_rate (some p) else some (1/4)
  | none => some (1/4)

/-- The ROA entry of `calculate_return_metrics` for one year. -/
def roaFor (c : MetricsCalculator) (year : Int) (priorYear : Option Int) :
    Option ℚ :=
  let net_income := getValue c.income "net_income" year
  let assets := getValue c.balance "total_assets" year
  let assets_prior := match priorYear with
    | some p => getValue c.balance "total_assets" p
    | none => none
  safeDivide net_income (avg assets assets_prior)

/-- The ROE entry of `calculate_return_metrics` for one year. -/
def roeFor (c : MetricsCalculator) (year : Int) (priorYear : Option Int) :
    Option ℚ :=
  let net_income := getValue c.income "net_income" year
  let equity := getValue c.balance "total_equity" year
  let equity_prior := match priorYear with
    | some p => getValue c.balance "total_equity" p
    | none => none
  safeDivide net_income (avg equity equity_prior)

/-- The ROIC entry of `calculate_return_metrics` for one year: the outer
`Option` is whether the `metrics.roic[year]` entry is written at all (the
body is guarded by `ebit is not None and eff_tax is not None`), the inner
`Option` is the recorded `safe_divide` value.  Missing debt, cash and
equity components are all replaced by 0 (Python `or 0`). -/
def roicFor (c : MetricsCalculator) (year : Int) (priorYear : Option Int) :
    Option (Option ℚ) :=
  let ebit := getValue c.income "operating_income" year
  let eff_tax := effTaxFor c year
  let equity := getValue c.balance "total_equity" year
  let equity_prior := match priorYear with
    | some p => getValue c.balance "total_equity" p
    | none => none
  match ebit, eff_tax with
  | some e, some t =>
    let nopat := e * (1 - t)
    let debt := (getValue c.balance "long_term_debt" year).getD 0 +
                (getValue c.balance "short_term_debt" year).getD 0
    let cash := (getValue c.balance "cash" year).getD 0
    let invested_capital := (debt + equity.getD 0) - cash
    let debt_prior := match priorYear with
      | some p => (getValue c.balance "long_term_debt" p).getD 0 +
                  (getValue c.balance "short_term_debt" p).getD 0
      | none => 0
    let cash_prior := match priorYear with
      | some p => (getValue c.balance "cash" p).getD 0
      | none => 0
    let ic_prior := match priorYear with
      | some _ => (debt_prior + equity_prior.getD 0) - cash_prior
      | none => invested_capital
    some (safeDivide (some nopat) (avg (some invested_capital) (some ic_prior)))
  | _, _ => none

/-- The ROIC series of `calculate_return_metrics`: the loop enumerates the
descending years, passing `years[i+1]` as prior year when it exists; a pair
is emitted only when the guarded body runs. -/
def roicEntries (c : MetricsCalculator) : List (Int × Option ℚ) :=
  c.years.enum.filterMap fun iy =>
    (roicFor c iy.2 (c.years.get? (iy.1 + 1))).map fun v => (iy.2, v)

/-- Embeds the `Severity` enumeration of the validator. -/
inductive Severity
  | ERROR
  | WARNING
  | INFO
deriving DecidableEq

/-- Embeds `ValidationIssue`. -/
structure ValidationIssue where
  category : String
  field : String
  message : String
  severity : Severity
  suggestion : Option String := none
deriving DecidableEq

/-- Embeds `ValidationResult`. -/
structure ValidationResult where
  is_valid : Bool
  issues : List ValidationIssue := []
  missing_required : List String := []
  warnings : List String := []
deriving DecidableEq

/-- The initial result built by `AssumptionValidator.__init__`. -/
def initResult : ValidationResult := { is_valid := true }

/-- Embeds `AssumptionValidator._add_issue`. -/
def addIssue (r : ValidationResult) (i : ValidationIssue) : ValidationResult :=
  let r1 := { r with issues := r.issues ++ [i] }
  match i.severity with
  | .ERROR =>
      { r1 with is_valid := false
                missing_required :=
                  r1.missing_required ++ [i.category ++ "." ++ i.field] }
  | .WARNING =>
      { r1 with warnings :=
                  r1.warnings ++ [i.category ++ "." ++ i.field ++ ": " ++ i.message] }
  | .INFO => r1

/-- The `model_config` category of an `AssumptionSet` (its four known
fields; enum-valued fields hold strings, the projection length an
integer). -/
structure ModelConfig where
  dcf_type : Option String := none
  complexity : Option String := none
  projection_years : Option Int := none
  terminal_method : Option String := none
deriving DecidableEq

/-- A numeric assumption category: a mapping from field names to values. -/
abbrev AssumptionSection := List (String × ℚ)

/-- An `AssumptionSet`: a missing category and an empty mapping are both
represented by the empty list (both are falsy in the source); `scenarios`
keeps only its key set, the only part the validator reads. -/
structure Assumptions where
  model_config : ModelConfig := {}
  revenue : AssumptionSection := []
  costs : AssumptionSection := []
  capital_structure : AssumptionSection := []
  terminal_value : AssumptionSection := []
  working_capital : AssumptionSection := []
  capex : AssumptionSection := []
  scenarios : List String := []
deriving DecidableEq

/-- Embeds `REASONABLE_RANGES`. -/
def reasonableRanges : List (String × (ℚ × ℚ)) :=
  [ ("revenue_growth", (-(1/5), 1/2)),
    ("terminal_growth_rate", (0, 1/25)),
    ("perpetuity_growth_rate", (0, 1/25)),
    ("gross_margin", (1/20, 19/20)),
    ("ebit_margin", (-(1/5), 3/5)),
    ("risk_free_rate", (1/100, 1/10)),
    ("equity_risk_premium", (3/100, 1/10)),
    ("beta", (3/10, 3)),
    ("cost_of_debt", (1/50, 3/20)),
    ("tax_rate", (1/10, 2/5)),
    ("exit_multiple", (3, 25)),
    ("capex_pct_revenue", (1/100, 1/4)),
    ("dso_days", (15, 120)),
    ("dio_days", (0, 180)),
    ("dpo_days", (15, 120)),
    ("wacc", (1/20, 1/5)) ]

/-- Embeds `AssumptionValidator._check_range` (as the list of issues it
records): a WARNING when the value lies strictly outside the tabulated
range; nothing when the range key is not tabulated.  `range_key or field`
uses string truthiness, so an empty-string key also falls back to the
field name. -/
def checkRange (category fieldName : String) (value : ℚ)
    (rangeKey : Option String := none) : List ValidationIssue :=
  let key := match rangeKey with
    | some k => if k = "" then fieldName else k
    | none => fieldName
  match reasonableRanges.lookup key with
  | none => []
  | some mm =>
      if value < mm.1 ∨ value > mm.2 then
        [{ category := category, field := fieldName,
           message := "Value is outside typical range",
           severity := .WARNING,
           suggestion := some "Verify this assumption is intentional" }]
      else []

/-- Python membership of an optional string in a list of strings; `None`
is never a member. -/
def strIn (v : Option String) (allowed : List String) : Bool :=
  match v with
  | some s => allowed.contains s
  | none => false

/-- Embeds `validate_model_config` as the ordered list of issues it
records. -/
def validateModelConfigIssues (a : Assumptions) : List ValidationIssue :=
  let config := a.model_config
  (if strIn config.dcf_type ["unlevered", "levered"] then []
   else [{ category := "model_config", field := "dcf_type",
           message := "DCF type must be unlevered (WACC) or levered (equity)",
           severity := .ERROR }]) ++
  (if strIn config.complexity ["2-stage", "3-stage", "lbo"] then []
   else [{ category := "model_config", field := "complexity",
           message := "Complexity must be 2-stage, 3-stage, or lbo",
           severity := .ERROR }]) ++
  (match config.projection_years with
   | none => [{ category := "model_config", field := "projection_years",
                message := "Projection period is required",
                severity := .ERROR }]
   | some years =>
       if years < 3 ∨ years > 15 then
         [{ category := "model_config", field := "projection_years",
            message := "Projection period is unusual (typical: 5-10)",
            severity := .WARNING }]
       else []) ++
  (if strIn config.terminal_method ["perpetuity", "exit_multiple", "both"] then []
   else [{ category := "model_config", field := "terminal_method",
           message := "Terminal method must be perpetuity, exit_multiple, or both",
           severity := .ERROR }])

/-- The projection length used by `validate_revenue_assumptions`:
`_get_assumption("model_config", "projection_years") or 5`, so a missing
or zero value falls back to 5. -/
def projectionYearsOr5 (a : Assumptions) : Int :=
  match a.model_config.projection_years with
  | some y => if y = 0 then 5 else y
  | none => 5

/-- Embeds `validate_revenue_assumptions` as the ordered list of issues it
records.  The growth-rate loop runs over `range(1, min(projection_years + 1, 6))`,
that is over the indices `i` in 1..5 with `i <= min(projection_years, 5)`. -/
def validateRevenueIssues (a : Assumptions) : List ValidationIssue :=
  let revenue := a.revenue
  if revenue = [] then
    [{ category := "revenue", field := "all",
       message := "Revenue assumptions section is missing",
       severity := .ERROR }]
  else
    let projection_years := projectionYearsOr5 a
    ((([1, 2, 3, 4, 5] : List Int).filter fun i => i ≤ min projection_years 5).flatMap
      fun i =>
        let key := "revenue_growth_y" ++ toString i
        match revenue.lookup key with
        | none =>
            if i ≤ 3 then
              [{ category := "revenue", field := key,
                 message := "Year revenue growth rate is required",
                 severity := .ERROR }]
            else []
        | some value => checkRange "revenue" key value (some "revenue_growth")) ++
    (match revenue.lookup "terminal_growth_rate" with
     | none =>
         [{ category := "revenue", field := "terminal_growth_rate",
            message := "Terminal growth rate is required",
            severity := .ERROR }]
     | some terminal_growth =>
         checkRange "revenue" "terminal_growth_rate" terminal_growth ++
         (if terminal_growth > 3/100 then
            [{ category := "revenue", field := "terminal_growth_rate",
               message := "Terminal growth exceeds long-term GDP growth",
               severity := .WARNING,
               suggestion := some "Consider using 2-3 percent for mature companies" }]
          else []))

/-- Embeds `validate_cost_assumptions` as the ordered list of issues it
records. -/
def validateCostIssues (a : Assumptions) : List ValidationIssue :=
  let costs := a.costs
  if costs = [] then
    [{ category := "costs", field := "all",
       message := "Cost assumptions section is missing",
       severity := .ERROR }]
  else
    (match costs.lookup "gross_margin_target" with
     | some gm => checkRange "costs" "gross_margin_target" gm (some "gross_margin")
     | none => []) ++
    (match costs.lookup "opex_pct_revenue" with
     | none =>
         [{ category := "costs", field := "opex_pct_revenue",
            message := "Operating expenses as percent of revenue is required",
            severity := .ERROR }]
     | some _ => [])

/-- Embeds `validate_capital_structure` as the ordered list of issues it
records. -/
def validateCapitalStructureIssues (a : Assumptions) : List ValidationIssue :=
  let cap := a.capital_structure
  if cap = [] then
    [{ category := "capital_structure", field := "all",
       message := "Capital structure assumptions section is missing",
       severity := .ERROR }]
  else
    (match cap.lookup "risk_free_rate" with
     | none =>
         [{ category := "capital_structure", field := "risk_free_rate",
            message := "Risk-free rate is required (typically 10-year Treasury yield)",
            severity := .ERROR }]
     | some rf => checkRange "capital_structure" "risk_free_rate" rf) ++
    (match cap.lookup "equity_risk_premium" with
     | none =>
         [{ category := "capital_structure", field := "equity_risk_premium",
            message := "Equity risk premium is required (typically 5-6 percent)",
            severity := .ERROR }]
     | some erp => checkRange "capital_structure" "equity_risk_premium" erp) ++
    (match cap.lookup "beta" with
     | none =>
         [{ category := "capital_structure", field := "beta",
            message := "Beta is required for cost of equity calculation",
            severity := .ERROR }]
     | some beta => checkRange "capital_structure" "beta" beta) ++
    (if a.model_config.dcf_type = some "unlevered" then
       let target_de := cap.lookup "target_debt_to_equity"
       (if target_de = none then
          [{ category := "capital_structure", field := "target_debt_to_equity",
             message := "Target D/E ratio is required for WACC calculation",
             severity := .ERROR }]
        else []) ++
       (match cap.lookup "cost_of_debt" with
        | none =>
            match target_de with
            | some t =>
                if t ≠ 0 ∧ t > 0 then
                  [{ category := "capital_structure", field := "cost_of_debt",
                     message := "Cost of debt is required when using debt financing",
                     severity := .ERROR }]
                else []
            | none => []
        | some cod => checkRange "capital_structure" "cost_of_debt" cod)
     else [])

/-- Embeds `_calculate_implied_wacc`.  `all([rf, erp, beta])` is a Python
truthiness test, so a rate that is present but exactly zero also aborts
the computation.  (At `target_debt_to_equity = -1` the source would raise
ZeroDivisionError; in ℚ the division yields 0, an input no claim
exercises.) -/
def calculateImpliedWacc (a : Assumptions) : Option ℚ :=
  let cap := a.capital_structure
  let rfOpt := cap.lookup "risk_free_rate"
  let erpOpt := cap.lookup "equity_risk_premium"
  let betaOpt := cap.lookup "beta"
  if truthy rfOpt ∧ truthy erpOpt ∧ truthy betaOpt then
    let rf := rfOpt.getD 0
    let erp := erpOpt.getD 0
    let beta := betaOpt.getD 0
    let ke := rf + beta * erp
    let target_de := (cap.lookup "target_debt_to_equity").getD 0
    if target_de = 0 then some ke
    else
      let cod := (cap.lookup "cost_of_debt").getD (1/20)
      let tax_rate := (cap.lookup "tax_rate").getD (1/4)
      let d_ratio := target_de / (1 + target_de)
      let e_ratio := 1 - d_ratio
      some (e_ratio * ke + d_ratio * cod * (1 - tax_rate))
  else none

/-- Embeds `validate_terminal_value` as the ordered list of issues it
records.  The growth-versus-discount-rate check fires only when the
implied rate is computed AND truthy (`if wacc and pg >= wacc`), so an
implied rate of exactly 0 suppresses it. -/
def validateTerminalValueIssues (a : Assumptions) : List ValidationIssue :=
  let tv := a.terminal_value
  let method := a.model_config.terminal_method
  (if method = some "perpetuity" ∨ method = some "both" then
     match tv.lookup "perpetuity_growth_rate" with
     | none =>
         [{ category := "terminal_value", field := "perpetuity_growth_rate",
            message := "Perpetuity growth rate is required for Gordon Growth method",
            severity := .ERROR }]
     | some pg =>
         checkRange "terminal_value" "perpetuity_growth_rate" pg ++
         (match calculateImpliedWacc a with
          | some wacc =>
              if wacc ≠ 0 ∧ pg ≥ wacc then
                [{ category := "terminal_value", field := "perpetuity_growth_rate",
                   message := "Growth rate must be less than WACC",
                   severity := .ERROR }]
              else []
          | none => [])
   else []) ++
  (if method = some "exit_multiple" ∨ method = some "both" then
     match tv.lookup "exit_multiple" with
     | none =>
         [{ category := "terminal_value", field := "exit_multiple",
            message := "Exit EBITDA multiple is required",
            severity := .ERROR }]
     | some em => checkRange "terminal_value" "exit_multiple" em
   else [])

/-- Embeds `validate_working_capital` as the ordered list of issues it
records. -/
def validateWorkingCapitalIssues (a : Assumptions) : List ValidationIssue :=
  let wc := a.working_capital
  if wc = [] then
    [{ category := "working_capital", field := "all",
       message := "Working capital assumptions are missing - will use historical averages",
       severity := .WARNING }]
  else
    (match wc.lookup "dso_days" with
     | some dso => checkRange "working_capital" "dso_days" dso
     | none => []) ++
    (match wc.lookup "dio_days" with
     | some dio => checkRange "working_capital" "dio_days" dio
     | none => []) ++
    (match wc.lookup "dpo_days" with
     | some dpo => checkRange "working_capital" "dpo_days" dpo
     | none => [])

/-- Embeds `validate_capex` as the ordered list of issues it records. -/
def validateCapexIssues (a : Assumptions) : List ValidationIssue :=
  let capex := a.capex
  if capex = [] then
    [{ category := "capex", field := "all",
       message := "CapEx assumptions are missing - will use historical averages",
       severity := .WARNING }]
  else
    match capex.lookup "capex_pct_revenue" with
    | some capex_pct => checkRange "capex" "capex_pct_revenue" capex_pct
    | none => []

/-- Embeds `validate_scenarios` as the ordered list of issues it records. -/
def validateScenariosIssues (a : Assumptions) : List ValidationIssue :=
  let scenarios := a.scenarios
  if scenarios = [] then []
  else
    (["base", "bull", "bear"] : List String).flatMap fun scenario =>
      if scenario ∈ scenarios then []
      else
        [{ category := "scenarios", field := scenario,
           message := "scenario is missing",
           severity := .INFO }]

/-- The ordered list of all issues recorded by `validate_all`. -/
def allIssues (a : Assumptions) : List ValidationIssue :=
  validateModelConfigIssues a ++
  validateRevenueIssues a ++
  validateCostIssues a ++
  validateCapitalStructureIssues a ++
  validateTerminalValueIssues a ++
  validateWorkingCapitalIssues a ++
  validateCapexIssues a ++
  validateScenariosIssues a

/-- Embeds `validate_all`: every recorded issue passes through
`_add_issue`, starting from the fresh result. -/
def validateAll (a : Assumptions) : ValidationResult :=
  (allIssues a).foldl addIssue initResult

/-- The invested-capital formula named by the specification:
`(longTermDebt + shortTermDebt + equity) - cash` with every missing
balance-sheet component replaced by zero. -/
def investedCapitalSpec (c : MetricsCalculator) (year : Int) : ℚ :=
  (getValue c.balance "long_term_debt" year).getD 0 +
  (getValue c.balance "short_term_debt" year).getD 0 +
  (getValue c.balance "total_equity" year).getD 0 -
  (getValue c.balance "cash" year).getD 0

/-- The implied discount rate named by the specification, computed from
supplied nonzero CAPM inputs: `costOfEquity = rf + beta * erp`; if
target_debt_to_equity is zero or absent the rate is the cost of equity,
otherwise `equityWeight * costOfEquity + debtWeight * costOfDebt * (1 - taxRate)`
with `debtWeight = t / (1 + t)`, cost of debt defaulting to 5 percent and
tax rate to 25 percent. -/
def impliedRateSpec (a : Assumptions) (rf erp beta : ℚ) : ℚ :=
  let costOfEquity := rf + beta * erp
  let t := (a.capital_structure.lookup "target_debt_to_equity").getD 0
  if t = 0 then costOfEquity
  else
    let debtWeight := t / (1 + t)
    let equityWeight := 1 - debtWeight
    let costOfDebt := (a.capital_structure.lookup "cost_of_debt").getD (1/20)
    let taxRate := (a.capital_structure.lookup "tax_rate").getD (1/4)
    equityWeight * costOfEquity + debtWeight * costOfDebt * (1 - taxRate)

/-- A complete, fully valid assumption set used as a base for concrete
instantiations: perpetuity terminal method, beta 1.1, risk-free rate 4
percent, equity risk premium 5 percent, no target leverage. -/
def exBase : Assumptions :=
  { model_config :=
      { dcf_type := some "levered", complexity := some "2-stage",
        projection_years := some 5, terminal_method := some "perpetuity" }
    revenue := [("revenue_growth_y1", 1/20), ("revenue_growth_y2", 1/20),
                ("revenue_growth_y3", 1/20), ("terminal_growth_rate", 1/50)]
    costs := [("gross_margin_target", 1/2), ("opex_pct_revenue", 1/5)]
    capital_structure := [("risk_free_rate", 1/25),
                          ("equity_risk_premium", 1/20), ("beta", 11/10)]
    terminal_value := [("perpetuity_growth_rate", 3/100)]
    working_capital := [("dso_days", 30)]
    capex := [("capex_pct_revenue", 1/10)] }

/-- The base set with a perpetuity growth rate of 10 percent, above the
implied discount rate of 9.5 percent. -/
def exHighGrowth : Assumptions :=
  { exBase with terminal_value := [("perpetuity_growth_rate", 1/10)] }

/-- A set whose risk-free rate is present but exactly zero: the claimed
implied rate would be `0 + 1.1 * 0.05 = 0.055`, below the supplied
perpetuity growth rate of 10 percent. -/
def exZeroRf : Assumptions :=
  { exBase with
    capital_structure := [("risk_free_rate", 0),
                          ("equity_risk_premium", 1/20), ("beta", 11/10)]
    terminal_value := [("perpetuity_growth_rate", 1/10)] }

/-- A set whose risk-free rate is present but exactly zero, with beta 1 and
a perpetuity growth rate of 10 percent (so the claimed consistency check
would flag `0.10 >= 0.05`). -/
def exZeroRfUnit : Assumptions :=
  { exBase with
    capital_structure := [("risk_free_rate", 0),
                          ("equity_risk_premium", 1/20), ("beta", 1)]
    terminal_value := [("perpetuity_growth_rate", 1/10)] }

/-- An eight-year projection whose year-6 growth rate is present and far
outside the reasonable range. -/
def exYearSix : Assumptions :=
  { exBase with
    model_config := { exBase.model_config with projection_years := some 8 }
    revenue := exBase.revenue ++ [("revenue_growth_y6", 9/10)] }

/-- A two-year projection with `revenue_growth_y3` absent. -/
def exTwoYears : Assumptions :=
  { exBase with
    model_config := { exBase.model_config with projection_years := some 2 }
    revenue := [("revenue_growth_y1", 1/20), ("revenue_growth_y2", 1/20),
                ("terminal_growth_rate", 1/50)] }

/-- A single-year statement set whose balance sheet has no
`total_equity` entry: operating income 100, no pretax income (so the
25-percent fallback tax applies), long-term debt 50, cash 10. -/
def exNoEquity : MetricsCalculator :=
  { years := [2020]
    income := [("operating_income", [(YKey.ikey 2020, 100)])]
    balance := [("long_term_debt", [(YKey.ikey 2020, 50)]),
                ("cash", [(YKey.ikey 2020, 10)])] }

/-- A statement whose revenue for 2020 is stored as 0 under the
decimal-string key only. -/
def exStringZero : Statement :=
  [("revenue", [(YKey.skey "2020", (0 : ℚ))])]

/-- A small two-year statement set used to instantiate the growth and
return metric theorems. -/
def exTwoYearData : MetricsCalculator :=
  { years := [2021, 2020]
    income := [("revenue", [(YKey.ikey 2021, 120), (YKey.ikey 2020, 100)]),
               ("operating_income", [(YKey.ikey 2021, 30), (YKey.ikey 2020, 20)])]
    balance := [("total_equity", [(YKey.ikey 2021, 200), (YKey.ikey 2020, 180)]),
                ("long_term_debt", [(YKey.ikey 2021, 40), (YKey.ikey 2020, 50)]),
                ("cash", [(YKey.ikey 2021, 10), (YKey.ikey 2020, 10)])] }

/-- Two sample issues used to instantiate the severity-effect theorem. -/
def exIssueList : List ValidationIssue :=
  [{ category := "revenue", field := "revenue_growth_y1",
     message := "Year revenue growth rate is required", severity := .ERROR },
   { category := "capital_structure", field := "beta",
     message := "Value is outside typical range", severity := .WARNING }]

/-! ### Helper lemmas -/

/-- The loop field name for year 1. -/
theorem growthKey1 : "revenue_growth_y" ++ toString (1 : Int) = "revenue_growth_y1" := rfl

/-- The loop field name for year 2. -/
theorem growthKey2 : "revenue_growth_y" ++ toString (2 : Int) = "revenue_growth_y2" := rfl

/-- The loop field name for year 3. -/
theorem growthKey3 : "revenue_growth_y" ++ toString (3 : Int) = "revenue_growth_y3" := rfl

/-- The loop field name for year 4. -/
theorem growthKey4 : "revenue_growth_y" ++ toString (4 : Int) = "revenue_growth_y4" := rfl

/-- The loop field name for year 5. -/
theorem growthKey5 : "revenue_growth_y" ++ toString (5 : Int) = "revenue_growth_y5" := rfl

/-- Every issue recorded by `_check_range` is a WARNING on the given
category and field. -/
theorem checkRange_subset (category fieldName : String) (v : ℚ) (k : Option String) :
    ∀ i ∈ checkRange category fieldName v k,
      i.category = category ∧ i.field = fieldName ∧ i.severity = Severity.WARNING := by
  intro i hi
  simp only [checkRange] at hi
  repeat' split at hi
  all_goals simp_all

/-- Category and field inventory of `validate_model_config`. -/
theorem mem_validateModelConfigIssues (a : Assumptions) :
    ∀ i ∈ validateModelConfigIssues a, i.category = "model_config" ∧
      i.field ∈ ["dcf_type", "complexity", "projection_years", "terminal_method"] := by
  intro i hi
  simp only [validateModelConfigIssues, List.mem_append] at hi
  rcases hi with ((h | h) | h) | h <;> (repeat' split at h) <;> simp_all

/-- Category and field inventory of `validate_revenue_assumptions`. -/
theorem mem_validateRevenueIssues (a : Assumptions) :
    ∀ i ∈ validateRevenueIssues a, i.category = "revenue" ∧
      i.field ∈ ["all", "revenue_growth_y1", "revenue_growth_y2", "revenue_growth_y3",
                 "revenue_growth_y4", "revenue_growth_y5", "terminal_growth_rate"] := by
  intro i hi
  simp only [validateRevenueIssues] at hi
  split at hi
  · simp_all
  · simp only [List.mem_append, List.mem_flatMap, List.mem_filter] at hi
    rcases hi with ⟨j, ⟨hj, _⟩, hbody⟩ | h
    · fin_cases hj <;>
        · split at hbody
          · split at hbody <;>
              simp_all [growthKey1, growthKey2, growthKey3, growthKey4, growthKey5]
          · have := checkRange_subset _ _ _ _ i hbody
            simp_all [growthKey1, growthKey2, growthKey3, growthKey4, growthKey5]
    · split at h
      · simp_all
      · simp only [List.mem_append] at h
        rcases h with h | h
        · have := checkRange_subset _ _ _ _ i h
          simp_all
        · split at h <;> simp_all

/-- Category and field inventory of `validate_cost_assumptions`. -/
theorem mem_validateCostIssues (a : Assumptions) :
    ∀ i ∈ validateCostIssues a, i.category = "costs" ∧
      i.field ∈ ["all", "gross_margin_target", "opex_pct_revenue"] := by
  intro i hi
  simp only [validateCostIssues] at hi
  split at hi
  · simp_all
  · simp only [List.mem_append] at hi
    rcases hi with h | h
    · split at h
      · have := checkRange_subset _ _ _ _ i h
        simp_all
      · simp at h
    · split at h <;> simp_all

/-- Category and field inventory of `validate_capital_structure`. -/
theorem mem_validateCapitalStructureIssues (a : Assumptions) :
    ∀ i ∈ validateCapitalStructureIssues a, i.category = "capital_structure" ∧
      i.field ∈ ["all", "risk_free_rate", "equity_risk_premium", "beta",
                 "target_debt_to_equity", "cost_of_debt"] := by
  intro i hi
  simp only [validateCapitalStructureIssues] at hi
  split at hi
  · simp_all
  · simp only [List.mem_append] at hi
    rcases hi with ((h | h) | h) | h
    · split at h
      · simp_all
      · have := checkRange_subset _ _ _ _ i h
        simp_all
    · split at h
      · simp_all
      · have := checkRange_subset _ _ _ _ i h
        simp_all
    · split at h
      · simp_all
      · have := checkRange_subset _ _ _ _ i h
        simp_all
    · split at h
      · simp only [List.mem_append] at h
        rcases h with h | h
        · split at h <;> simp_all
        · split at h
          · split at h
            · split at h <;> simp_all
            · simp at h
          · have := checkRange_subset _ _ _ _ i h
            simp_all
      · simp at h

/-- Category and field inventory of `validate_terminal_value`. -/
theorem mem_validateTerminalValueIssues (a : Assumptions) :
    ∀ i ∈ validateTerminalValueIssues a, i.category = "terminal_value" ∧
      i.field ∈ ["perpetuity_growth_rate", "exit_multiple"] := by
  intro i hi
  simp only [validateTerminalValueIssues, List.mem_append] at hi
  rcases hi with h | h
  · split at h
    · split at h
      · simp_all
      · simp only [List.mem_append] at h
        rcases h with h | h
        · have := checkRange_subset _ _ _ _ i h
          simp_all
        · split at h
          · split at h <;> simp_all
          · simp at h
    · simp at h
  · split at h
    · split at h
      · simp_all
      · have := checkRange_subset _ _ _ _ i h
        simp_all
    · simp at h

/-- Category and field inventory of `validate_working_capital`. -/
theorem mem_validateWorkingCapitalIssues (a : Assumptions) :
    ∀ i ∈ validateWorkingCapitalIssues a, i.category = "working_capital" ∧
      i.field ∈ ["all", "dso_days", "dio_days", "dpo_days"] := by
  intro i hi
  simp only [validateWorkingCapitalIssues] at hi
  split at hi
  · simp_all
  · simp only [List.mem_append] at hi
    rcases hi with (h | h) | h <;>
      · split at h
        · have := checkRange_subset _ _ _ _ i h
          simp_all
        · simp at h

/-- Category and field inventory of `validate_capex`. -/
theorem mem_validateCapexIssues (a : Assumptions) :
    ∀ i ∈ validateCapexIssues a, i.category = "capex" ∧
      i.field ∈ ["all", "capex_pct_revenue"] := by
  intro i hi
  simp only [validateCapexIssues] at hi
  split at hi
  · simp_all
  · split at hi
    · have := checkRange_subset _ _ _ _ i hi
      simp_all
    · simp at hi

/-- Category and field inventory of `validate_scenarios`. -/
theorem mem_validateScenariosIssues (a : Assumptions) :
    ∀ i ∈ validateScenariosIssues a, i.category = "scenarios" ∧
      i.field ∈ ["base", "bull", "bear"] ∧ i.severity = Severity.INFO := by
  intro i hi
  simp only [validateScenariosIssues] at hi
  split at hi
  · simp at hi
  · simp only [List.mem_flatMap] at hi
    rcases hi with ⟨s, hs, hbody⟩
    fin_cases hs <;> split at hbody <;> simp_all

/-- Closed form of folding `_add_issue` over a list of issues from an
arbitrary starting result. -/
theorem foldl_addIssue_spec (l : List ValidationIssue) (r : ValidationResult) :
    l.foldl addIssue r =
      { is_valid := r.is_valid && l.all (fun i => !decide (i.severity = Severity.ERROR)),
        issues := r.issues ++ l,
        missing_required := r.missing_required ++
          (l.filter (fun i => decide (i.severity = Severity.ERROR))).map
            (fun i => i.category ++ "." ++ i.field),
        warnings := r.warnings ++
          (l.filter (fun i => decide (i.severity = Severity.WARNING))).map
            (fun i => i.category ++ "." ++ i.field ++ ": " ++ i.message) } := by
  induction l generalizing r with
  | nil => simp
  | cons hd tl ih =>
      rw [List.foldl_cons, ih]
      cases h : hd.severity <;>
        simp [addIssue, h, Bool.and_assoc, List.append_assoc]

/-- The issue list accumulated by `validate_all` is exactly the ordered
concatenation of the eight checks' issues. -/
theorem validateAll_issues (a : Assumptions) :
    (validateAll a).issues = allIssues a := by
  rw [validateAll, foldl_addIssue_spec]
  simp [initResult]

/-- `_check_range` against the revenue_growth bounds, in closed form. -/
theorem checkRange_revenue_growth (c f : String) (v : ℚ) :
    checkRange c f v (some "revenue_growth") =
      if v < -(1/5) ∨ v > 1/2 then
        [{ category := c, field := f,
           message := "Value is outside typical range",
           severity := Severity.WARNING,
           suggestion := some "Verify this assumption is intentional" }]
      else [] := by
  simp [checkRange, reasonableRanges, List.lookup]

/-- Issues of category model_config in the full run come only from
`validate_model_config`. -/
theorem mem_allIssues_model_config (a : Assumptions) (i : ValidationIssue)
    (hc : i.category = "model_config") :
    i ∈ allIssues a ↔ i ∈ validateModelConfigIssues a := by
  constructor
  · intro h
    simp only [allIssues, List.mem_append, or_assoc] at h
    rcases h with h | h | h | h | h | h | h | h
    · exact h
    · have := (mem_validateRevenueIssues a i h).1; rw [this] at hc; simp at hc
    · have := (mem_validateCostIssues a i h).1; rw [this] at hc; simp at hc
    · have := (mem_validateCapitalStructureIssues a i h).1; rw [this] at hc; simp at hc
    · have := (mem_validateTerminalValueIssues a i h).1; rw [this] at hc; simp at hc
    · have := (mem_validateWorkingCapitalIssues a i h).1; rw [this] at hc; simp at hc
    · have := (mem_validateCapexIssues a i h).1; rw [this] at hc; simp at hc
    · have := (mem_validateScenariosIssues a i h).1; rw [this] at hc; simp at hc
  · intro h
    simp only [allIssues, List.mem_append, or_assoc]
    exact Or.inl h

/-- Issues of category revenue in the full run come only from
`validate_revenue_assumptions`. -/
theorem mem_allIssues_revenue (a : Assumptions) (i : ValidationIssue)
    (hc : i.category = "revenue") :
    i ∈ allIssues a ↔ i ∈ validateRevenueIssues a := by
  constructor
  · intro h
    simp only [allIssues, List.mem_append, or_assoc] at h
    rcases h with h | h | h | h | h | h | h | h
    · have := (mem_validateModelConfigIssues a i h).1; rw [this] at hc; simp at hc
    · exact h
    · have := (mem_validateCostIssues a i h).1; rw [this] at hc; simp at hc
    · have := (mem_validateCapitalStructureIssues a i h).1; rw [this] at hc; simp at hc
    · have := (mem_validateTerminalValueIssues a i h).1; rw [this] at hc; simp at hc
    · have := (mem_validateWorkingCapitalIssues a i h).1; rw [this] at hc; simp at hc
    · have := (mem_validateCapexIssues a i h).1; rw [this] at hc; simp at hc
    · have := (mem_validateScenariosIssues a i h).1; rw [this] at hc; simp at hc
  · intro h
    simp only [allIssues, List.mem_append, or_assoc]
    exact Or.inr (Or.inl h)

/-- Issues of category terminal_value in the full run come only from
`validate_terminal_value`. -/
theorem mem_allIssues_terminal_value (a : Assumptions) (i : ValidationIssue)
    (hc : i.category = "terminal_value") :
    i ∈ allIssues a ↔ i ∈ validateTerminalValueIssues a := by
  constructor
  · intro h
    simp only [allIssues, List.mem_append, or_assoc] at h
    rcases h with h | h | h | h | h | h | h | h
    · have := (mem_validateModelConfigIssues a i h).1; rw [this] at hc; simp at hc
    · have := (mem_validateRevenueIssues a i h).1; rw [this] at hc; simp at hc
    · have := (mem_validateCostIssues a i h).1; rw [this] at hc; simp at hc
    · have := (mem_validateCapitalStructureIssues a i h).1; rw [this] at hc; simp at hc
    · exact h
    · have := (mem_validateWorkingCapitalIssues a i h).1; rw [this] at hc; simp at hc
    · have := (mem_validateCapexIssues a i h).1; rw [this] at hc; simp at hc
    · have := (mem_validateScenariosIssues a i h).1; rw [this] at hc; simp at hc
  · intro h
    simp only [allIssues, List.mem_append, or_assoc]
    exact Or.inr (Or.inr (Or.inr (Or.inr (Or.inl h))))

/-- A list of issues all of one category filters to nothing under a
different category. -/
theorem filter_category_nil (c s : String) (l : List ValidationIssue)
    (hcat : ∀ i ∈ l, i.category = c) (hne : c ≠ s) :
    l.filter (fun i => decide (i.category = s)) = [] := by
  rw [List.filter_eq_nil_iff]
  intro i hi
  simp only [hcat i hi, decide_eq_true_eq]
  exact hne

/-- The missing_required list of the full run, in closed form. -/
theorem validateAll_missing_required (a : Assumptions) :
    (validateAll a).missing_required =
      ((allIssues a).filter (fun i => decide (i.severity = Severity.ERROR))).map
        (fun i => i.category ++ "." ++ i.field) := by
  rw [validateAll, foldl_addIssue_spec]
  simp [initResult]

/-- A tag `category ++ "." ++ field` determined by an inventory cannot be
an unrelated string. -/
theorem tag_ne_of (i : ValidationIssue) (c : String) (fs : List String) (s : String)
    (hc : i.category = c) (hf : i.field ∈ fs)
    (hall : ∀ f ∈ fs, ¬(c ++ "." ++ f = s)) :
    ¬(i.category ++ "." ++ i.field = s) := by
  rw [hc]
  exact hall _ hf

/-- First components of a list zipped with its own tail: all elements but
the last. -/
theorem map_fst_zip_tail (l : List Int) :
    ((l.zip l.tail).map Prod.fst) = l.dropLast := by
  induction l with
  | nil => rfl
  | cons a t ih =>
      cases t with
      | nil => rfl
      | cons b t2 => simpa using ih

/-- Python truthiness of an optional number, as a proposition: present
and nonzero. -/
theorem truthy_iff (o : Option ℚ) :
    truthy o = true ↔ o ≠ none ∧ o ≠ some 0 := by
  rcases o with _ | x <;> simp [truthy]

/-- When the three CAPM inputs are supplied and nonzero, the implied
discount rate of the source equals the specification formula. -/
theorem wacc_eq_spec (a : Assumptions) (rf erp beta : ℚ)
    (hrf : a.capital_structure.lookup "risk_free_rate" = some rf) (hrf0 : rf ≠ 0)
    (herp : a.capital_structure.lookup "equity_risk_premium" = some erp)
    (herp0 : erp ≠ 0)
    (hbeta : a.capital_structure.lookup "beta" = some beta) (hbeta0 : beta ≠ 0) :
    calculateImpliedWacc a = some (impliedRateSpec a rf erp beta) := by
  have t1 : truthy (some rf) = true := by simp [truthy, hrf0]
  have t2 : truthy (some erp) = true := by simp [truthy, herp0]
  have t3 : truthy (some beta) = true := by simp [truthy, hbeta0]
  simp only [calculateImpliedWacc, hrf, herp, hbeta, t1, t2, t3, and_self,
    if_true, Option.getD_some]
  by_cases h : (a.capital_structure.lookup "target_debt_to_equity").getD 0 = 0 <;>
    simp [impliedRateSpec, h]

/-- The keys of a growth series are all years but the oldest. -/
theorem growthEntries_keys (c : MetricsCalculator) (item : String) :
    (growthEntries c item).map Prod.fst = c.years.dropLast := by
  rw [growthEntries, List.map_map, ← map_fst_zip_tail]
  rfl

/-- Characterization of the issues the revenue growth-rate loop records
on a loop field `key` at index `i` in 1..5: the required-field ERROR
appears exactly when the index is within `min(projection_years, 5)`, is
at most 3, and the field is absent; the out-of-range WARNING appears
exactly when the index is within the bound and the present value lies
strictly outside the revenue-growth range. -/
theorem revenue_growth_issue_spec (a : Assumptions) (hne : a.revenue ≠ [])
    (i : Int) (key : String)
    (hi15 : i ∈ ([1, 2, 3, 4, 5] : List Int))
    (hdisc : ∀ j ∈ ([1, 2, 3, 4, 5] : List Int),
      ("revenue_growth_y" ++ toString j = key ↔ j = i))
    (hkt : key ≠ "terminal_growth_rate") :
    ((∃ iss ∈ (validateAll a).issues, iss.category = "revenue" ∧
        iss.field = key ∧ iss.severity = Severity.ERROR) ↔
      (i ≤ min (projectionYearsOr5 a) 5 ∧ i ≤ 3 ∧ a.revenue.lookup key = none)) ∧
    ((∃ iss ∈ (validateAll a).issues, iss.category = "revenue" ∧
        iss.field = key ∧ iss.severity = Severity.WARNING) ↔
      (i ≤ min (projectionYearsOr5 a) 5 ∧
        ∃ v, a.revenue.lookup key = some v ∧ (v < -(1/5) ∨ v > 1/2))) := by
  have hki : "revenue_growth_y" ++ toString i = key := (hdisc i hi15).mpr rfl
  constructor
  · constructor
    · rintro ⟨iss, hmem, hcat, hfld, hsev⟩
      rw [validateAll_issues, mem_allIssues_revenue a iss hcat] at hmem
      simp only [validateRevenueIssues, if_neg hne, List.mem_append,
        List.mem_flatMap, List.mem_filter] at hmem
      rcases hmem with ⟨j, ⟨hj5, hjcond⟩, hbody⟩ | h
      · have hjle : j ≤ min (projectionYearsOr5 a) 5 := by
          simpa using hjcond
        split at hbody
        · rename_i heq
          split at hbody
          · rename_i hj3
            simp only [List.mem_singleton] at hbody
            subst hbody
            have hji : j = i := (hdisc j hj5).mp hfld
            subst hji
            rw [hki] at heq
            exact ⟨hjle, hj3, heq⟩
          · simp at hbody
        · rename_i v heq
          rw [checkRange_revenue_growth] at hbody
          split at hbody
          · simp only [List.mem_singleton] at hbody
            subst hbody
            simp at hsev
          · simp at hbody
      · split at h
        · simp only [List.mem_singleton] at h
          subst h
          simp at hfld
          exact absurd hfld.symm hkt
        · simp only [List.mem_append] at h
          rcases h with h | h
          · have := checkRange_subset _ _ _ _ iss h
            rw [this.2.2] at hsev
            simp at hsev
          · split at h
            · simp only [List.mem_singleton] at h
              subst h
              simp at hsev
            · simp at h
    · rintro ⟨hmin, h3, hlook⟩
      refine ⟨{ category := "revenue", field := key,
                message := "Year revenue growth rate is required",
                severity := Severity.ERROR }, ?_, rfl, rfl, rfl⟩
      rw [validateAll_issues]
      refine (mem_allIssues_revenue a _ rfl).mpr ?_
      simp only [validateRevenueIssues, if_neg hne, List.mem_append,
        List.mem_flatMap, List.mem_filter]
      left
      refine ⟨i, ⟨hi15, by simpa using hmin⟩, ?_⟩
      rw [hki, hlook]
      simp [if_pos h3]
  · constructor
    · rintro ⟨iss, hmem, hcat, hfld, hsev⟩
      rw [validateAll_issues, mem_allIssues_revenue a iss hcat] at hmem
      simp only [validateRevenueIssues, if_neg hne, List.mem_append,
        List.mem_flatMap, List.mem_filter] at hmem
      rcases hmem with ⟨j, ⟨hj5, hjcond⟩, hbody⟩ | h
      · have hjle : j ≤ min (projectionYearsOr5 a) 5 := by
          simpa using hjcond
        split at hbody
        · split at hbody
          · simp only [List.mem_singleton] at hbody
            subst hbody
            simp at hsev
          · simp at hbody
        · rename_i v heq
          rw [checkRange_revenue_growth] at hbody
          split at hbody
          · rename_i hv
            simp only [List.mem_singleton] at hbody
            subst hbody
            have hji : j = i := (hdisc j hj5).mp hfld
            subst hji
            rw [hki] at heq
            exact ⟨hjle, v, heq, hv⟩
          · simp at hbody
      · split at h
        · simp only [List.mem_singleton] at h
          subst h
          simp at hfld
          exact absurd hfld.symm hkt
        · simp only [List.mem_append] at h
          rcases h with h | h
          · have := checkRange_subset _ _ _ _ iss h
            rw [this.2.1] at hfld
            exact absurd hfld.symm hkt
          · split at h
            · simp only [List.mem_singleton] at h
              subst h
              simp at hfld
              exact absurd hfld.symm hkt
            · simp at h
    · rintro ⟨hmin, v, hlook, hv⟩
      refine ⟨{ category := "revenue", field := key,
                message := "Value is outside typical range",
                severity := Severity.WARNING,
                suggestion := some "Verify this assumption is intentional" },
              ?_, rfl, rfl, rfl⟩
      rw [validateAll_issues]
      refine (mem_allIssues_revenue a _ rfl).mpr ?_
      simp only [validateRevenueIssues, if_neg hne, List.mem_append,
        List.mem_flatMap, List.mem_filter]
      left
      refine ⟨i, ⟨hi15, by simpa using hmin⟩, ?_⟩
      rw [hki, hlook]
      simpa [checkRange_revenue_growth] using hv

/-- In a duplicate-free list the last element does not occur among the
elements before it. -/
theorem getLast_not_mem_dropLast (l : List Int) (hne : l ≠ []) (hnd : l.Nodup) :
    l.getLast hne ∉ l.dropLast := by
  intro hmem
  have h := List.dropLast_append_getLast hne
  rw [← h] at hnd
  rcases List.nodup_append.mp hnd with ⟨-, -, hdisj⟩
  exact hdisj hmem (by simp)

/-! ### Claim theorems -/

/-- Claim C2: folding the recorded issues from the fresh result, validity
is false exactly when some ERROR was recorded (it starts true), every
ERROR appends its category.field string to missing_required, every
WARNING appends its formatted string to warnings without touching
validity, and an INFO issue changes none of the three; moreover validity
never reverts to true once false. -/
theorem c2_severity_effects (l : List ValidationIssue) :
    initResult.is_valid = true ∧
    (l.foldl addIssue initResult).issues = l ∧
    ((l.foldl addIssue initResult).is_valid = true ↔
      ∀ i ∈ l, i.severity ≠ Severity.ERROR) ∧
    (l.foldl addIssue initResult).missing_required =
      (l.filter (fun i => decide (i.severity = Severity.ERROR))).map
        (fun i => i.category ++ "." ++ i.field) ∧
    (l.foldl addIssue initResult).warnings =
      (l.filter (fun i => decide (i.severity = Severity.WARNING))).map
        (fun i => i.category ++ "." ++ i.field ++ ": " ++ i.message) ∧
    (∀ (r : ValidationResult) (i : ValidationIssue), r.is_valid = false →
      (addIssue r i).is_valid = false) ∧
    (∀ (r : ValidationResult) (i : ValidationIssue), i.severity = Severity.INFO →
      (addIssue r i).is_valid = r.is_valid ∧
      (addIssue r i).missing_required = r.missing_required ∧
      (addIssue r i).warnings = r.warnings) := by
  refine ⟨rfl, ?_, ?_, ?_, ?_, ?_, ?_⟩
  · rw [foldl_addIssue_spec]; simp [initResult]
  · rw [foldl_addIssue_spec]
    simp [initResult, List.all_eq_true]
  · rw [foldl_addIssue_spec]; simp [initResult]
  · rw [foldl_addIssue_spec]; simp [initResult]
  · intro r i hr
    cases h : i.severity <;> simp [addIssue, h, hr]
  · intro r i hi
    simp [addIssue, hi]

/-- Witness for C2 at a concrete issue list. -/
theorem c2_witness :
    (exIssueList.foldl addIssue initResult).issues = exIssueList :=
  (c2_severity_effects exIssueList).2.1

/-- Counterexample to claim C6 as stated: when the single defined operand
is the first one and equals 0, `_avg` returns undefined, not 0. -/
theorem c6_counterexample :
    avg (some (0 : ℚ)) none = none ∧ avg (some (0 : ℚ)) none ≠ some 0 := by
  decide

/-- Claim C6 as amended: the two-point average is the arithmetic mean when
both operands are defined; with only the second operand defined it returns
that value; with only the first operand defined it returns that value
unless the value is exactly 0, in which case it returns undefined (Python
`value1 or value2`); with neither defined it returns undefined. -/
theorem c6_avg_amended :
    (∀ x y : ℚ, avg (some x) (some y) = some ((x + y) / 2)) ∧
    (∀ y : ℚ, avg none (some y) = some y) ∧
    (∀ x : ℚ, x ≠ 0 → avg (some x) none = some x) ∧
    avg (some (0 : ℚ)) none = none ∧
    avg (none : Option ℚ) none = none := by
  refine ⟨fun x y => rfl, fun y => rfl, fun x hx => ?_, by decide, rfl⟩
  simp [avg, pyOr, truthy, hx]

/-- Witness for C6 at concrete values. -/
theorem c6_witness : avg (some (3 : ℚ)) none = some 3 :=
  c6_avg_amended.2.2.1 3 (by norm_num)

/-- Counterexample to claim C9 as stated: a value of exactly 0 stored
under the decimal-string year key is returned by the accessor (Python
`None or 0` evaluates to 0), so it is distinguishable from a missing
entry. -/
theorem c9_counterexample :
    getValue exStringZero "revenue" 2020 = some 0 ∧
    getValue exStringZero "revenue" 2020 ≠ none := by
  decide

/-- Claim C9 as amended: the accessor computes Python
`values.get(year) or values.get(str(year))`; a 0 stored under the integer
key is discarded and the lookup falls through to the string key, so the
accessor returns undefined exactly when the integer entry is absent or 0
and the string entry is also absent; a nonzero integer-key entry is
returned directly, and lookups succeed under either key form. -/
theorem c9_get_value_amended (stmt : Statement) (item : String) (year : Int)
    (vInt vStr : Option ℚ)
    (hI : ((stmt.lookup item).getD []).lookup (YKey.ikey year) = vInt)
    (hS : ((stmt.lookup item).getD []).lookup (YKey.skey (toString year)) = vStr) :
    (vInt = some 0 → getValue stmt item year = vStr) ∧
    (vInt = none → getValue stmt item year = vStr) ∧
    (∀ q : ℚ, q ≠ 0 → vInt = some q → getValue stmt item year = some q) ∧
    (vInt = some 0 → vStr = none → getValue stmt item year = none) := by
  refine ⟨?_, ?_, ?_, ?_⟩ <;>
    simp only [getValue, hI, hS]
  · rintro rfl; simp [pyOr, truthy]
  · rintro rfl; simp [pyOr, truthy]
  · rintro q hq rfl; simp [pyOr, truthy, hq]
  · rintro rfl rfl; simp [pyOr, truthy]

/-- Witness for C9 at a concrete statement: the integer-key 0 falls
through to an absent string entry, giving undefined. -/
theorem c9_witness :
    getValue [("revenue", [(YKey.ikey 2020, (0 : ℚ))])] "revenue" 2020 = none :=
  (c9_get_value_amended [("revenue", [(YKey.ikey 2020, (0 : ℚ))])] "revenue" 2020
      (some 0) none (by decide) (by decide)).2.2.2 rfl rfl

/-- Counterexample to claim C3 as stated: with `total_equity` missing for
the year the ROIC entry is still computed (equity is replaced by 0, like
the debt and cash components), rather than the whole computation being
skipped. -/
theorem c3_counterexample :
    getValue exNoEquity.balance "total_equity" 2020 = none ∧
    roicFor exNoEquity 2020 none = some (some (15 / 8)) := by
  refine ⟨rfl, ?_⟩
  norm_num [roicFor, effTaxFor, getValue, exNoEquity, safeDivide, avg, pyOr,
    truthy, List.lookup]

/-- Claim C3 as amended: the ROIC entry for a year exists exactly when
operating income and the effective tax rate are defined (a missing
`total_equity` is treated as zero, like the debt and cash components);
the invested capital is `(longTermDebt + shortTermDebt + equity) - cash`
with missing components as zero; at the oldest year (no prior year) the
prior invested capital equals the current one, so the averaged
denominator is the current invested capital, while with a prior year the
denominator is the two-year mean. -/
theorem c3_roic_amended :
    (∀ (c : MetricsCalculator) (year : Int) (priorYear : Option Int),
        (roicFor c year priorYear).isSome ↔
          ((getValue c.income "operating_income" year).isSome ∧
           (effTaxFor c year).isSome)) ∧
    (∀ (c : MetricsCalculator) (year : Int) (e t : ℚ),
        getValue c.income "operating_income" year = some e →
        effTaxFor c year = some t →
        roicFor c year none =
          some (safeDivide (some (e * (1 - t)))
            (some (investedCapitalSpec c year))) ∧
        ∀ p : Int,
          roicFor c year (some p) =
            some (safeDivide (some (e * (1 - t)))
              (some ((investedCapitalSpec c year + investedCapitalSpec c p) / 2)))) := by
  have key : ∀ n z : ℚ, safeDivide (some n) (avg (some z) (some z)) =
      safeDivide (some n) (some z) := by
    intro n z
    have hz : (z + z) / 2 = z := by ring
    simp [avg, hz]
  constructor
  · intro c year priorYear
    rcases h1 : getValue c.income "operating_income" year with _ | e <;>
      rcases h2 : effTaxFor c year with _ | t <;>
        simp [roicFor, h1, h2]
  · intro c year e t he ht
    constructor
    · simp only [roicFor, he, ht, key, investedCapitalSpec]
    · intro p
      simp only [roicFor, he, ht, avg, investedCapitalSpec]

/-- Witness for C3: the amended theorem applied at the no-equity example
(operating income 100, fallback tax 25 percent). -/
theorem c3_witness :
    roicFor exNoEquity 2020 none =
      some (safeDivide (some ((100 : ℚ) * (1 - 1/4)))
        (some (investedCapitalSpec exNoEquity 2020))) :=
  (c3_roic_amended.2 exNoEquity 2020 100 (1/4) rfl rfl).1

/-- Claim C4: every growth series (revenue, gross profit, operating
income, net income) has one entry per year except the oldest, in order;
the entry at position n is the growth of the year at position n against
the year at position n+1, which equals `(current - prior) / abs(prior)`
when both are defined and the prior is nonzero and is undefined
otherwise; the oldest year has no entry. -/
theorem c4_growth_metrics :
    (∀ cur pr : Option ℚ,
        (calcGrowth cur pr = none ↔ cur = none ∨ pr = none ∨ pr = some 0)) ∧
    (∀ cv pv : ℚ, pv ≠ 0 →
        calcGrowth (some cv) (some pv) = some ((cv - pv) / |pv|)) ∧
    (∀ c : MetricsCalculator,
        (calculateGrowthMetrics c).revenue_growth = growthEntries c "revenue" ∧
        (calculateGrowthMetrics c).gross_profit_growth = growthEntries c "gross_profit" ∧
        (calculateGrowthMetrics c).ebit_growth = growthEntries c "operating_income" ∧
        (calculateGrowthMetrics c).net_income_growth = growthEntries c "net_income") ∧
    (∀ (c : MetricsCalculator) (item : String),
        (growthEntries c item).map Prod.fst = c.years.dropLast ∧
        (∀ (n : ℕ) (y p : Int), c.years[n]? = some y → c.years[n + 1]? = some p →
          (growthEntries c item)[n]? =
            some (y, calcGrowth (getValue c.income item y) (getValue c.income item p))) ∧
        ∀ (h : c.years ≠ []), c.years.Nodup →
          c.years.getLast h ∉ (growthEntries c item).map Prod.fst) := by
  refine ⟨?_, ?_, ?_, ?_⟩
  · intro cur pr
    rcases cur with _ | cv
    · simp [calcGrowth]
    · rcases pr with _ | pv
      · simp [calcGrowth]
      · simp only [calcGrowth]
        split <;> simp_all
  · intro cv pv hpv
    simp [calcGrowth, hpv]
  · intro c
    exact ⟨rfl, rfl, rfl, rfl⟩
  · intro c item
    refine ⟨growthEntries_keys c item, ?_, ?_⟩
    · intro n y p hy hp
      simp only [growthEntries, List.getElem?_map]
      have hz : (c.years.zip c.years.tail)[n]? = some (y, p) := by
        rw [List.getElem?_zip_eq_some]
        exact ⟨hy, by rw [List.getElem?_tail]; exact hp⟩
      rw [hz]
      rfl
    · intro h hnd
      rw [growthEntries_keys]
      exact getLast_not_mem_dropLast _ h hnd

/-- Witness for C4: the two-year example has a growth entry at position 0
pairing 2021 against 2020. -/
theorem c4_witness :
    (growthEntries exTwoYearData "revenue")[0]? =
      some (2021, calcGrowth (getValue exTwoYearData.income "revenue" 2021)
                             (getValue exTwoYearData.income "revenue" 2020)) :=
  ((c4_growth_metrics.2.2.2 exTwoYearData "revenue").2.1) 0 2021 2020 rfl rfl

/-- Claim C7: an absent model_config.projection_years yields an ERROR; a
present value strictly below 3 or strictly above 15 yields a WARNING on
that field and never an ERROR; the bounds are inclusive, so a value that
is not outside them (in particular 3 or 15) yields no issue at all on
that field. -/
theorem c7_projection_years_bounds (a : Assumptions) :
    (a.model_config.projection_years = none →
      ∃ i ∈ (validateAll a).issues, i.category = "model_config" ∧
        i.field = "projection_years" ∧ i.severity = Severity.ERROR) ∧
    (∀ y : Int, a.model_config.projection_years = some y →
      ((∃ i ∈ (validateAll a).issues, i.category = "model_config" ∧
          i.field = "projection_years" ∧ i.severity = Severity.WARNING) ↔
        (y < 3 ∨ y > 15)) ∧
      (∀ i ∈ (validateAll a).issues,
        i.category = "model_config" → i.field = "projection_years" →
        i.severity ≠ Severity.ERROR) ∧
      (¬(y < 3 ∨ y > 15) →
        ∀ i ∈ (validateAll a).issues,
          ¬(i.category = "model_config" ∧ i.field = "projection_years"))) := by
  constructor
  · intro hnone
    refine ⟨{ category := "model_config", field := "projection_years",
              message := "Projection period is required",
              severity := Severity.ERROR }, ?_, rfl, rfl, rfl⟩
    rw [validateAll_issues]
    simp [allIssues, validateModelConfigIssues, hnone]
  · intro y hy
    refine ⟨⟨?_, ?_⟩, ?_, ?_⟩
    · rintro ⟨i, hmem, hcat, hfld, hsev⟩
      rw [validateAll_issues, mem_allIssues_model_config a i hcat] at hmem
      simp only [validateModelConfigIssues, hy, List.mem_append] at hmem
      rcases hmem with ((h | h) | h) | h
      · split at h <;> simp_all
      · split at h <;> simp_all
      · split at h
        · simp_all
        · simp at h
      · split at h <;> simp_all
    · intro hrange
      refine ⟨{ category := "model_config", field := "projection_years",
                message := "Projection period is unusual (typical: 5-10)",
                severity := Severity.WARNING }, ?_, rfl, rfl, rfl⟩
      rw [validateAll_issues]
      simp [allIssues, validateModelConfigIssues, hy, hrange]
    · intro i hmem hcat hfld
      rw [validateAll_issues, mem_allIssues_model_config a i hcat] at hmem
      simp only [validateModelConfigIssues, hy, List.mem_append] at hmem
      rcases hmem with ((h | h) | h) | h
      · split at h <;> simp_all
      · split at h <;> simp_all
      · split at h <;> simp_all
      · split at h <;> simp_all
    · intro hrange i hmem
      rintro ⟨hcat, hfld⟩
      rw [validateAll_issues, mem_allIssues_model_config a i hcat] at hmem
      simp only [validateModelConfigIssues, hy, List.mem_append] at hmem
      rcases hmem with ((h | h) | h) | h
      · split at h <;> simp_all
      · split at h <;> simp_all
      · rw [if_neg hrange] at h
        simp at h
      · split at h <;> simp_all

/-- Witness for C7: projection_years = 3 in the base example yields no
issue on the field (inclusive lower bound). -/
theorem c7_witness :
    ∀ i ∈ (validateAll
        { exBase with model_config :=
            { exBase.model_config with projection_years := some 3 } }).issues,
      ¬(i.category = "model_config" ∧ i.field = "projection_years") :=
  ((c7_projection_years_bounds _).2 3 rfl).2.2 (by decide)

/-- Claim C10: when the revenue, costs, or capital_structure section is
absent or empty, the full run records exactly one issue of that category,
namely the ERROR with field all (so missing_required gains the single
entry category.all), and none of the per-field checks of that section
run. -/
theorem c10_missing_sections (a : Assumptions) :
    (a.revenue = [] →
      (validateAll a).issues.filter (fun i => decide (i.category = "revenue")) =
        [{ category := "revenue", field := "all",
           message := "Revenue assumptions section is missing",
           severity := Severity.ERROR }] ∧
      (validateAll a).missing_required.count "revenue.all" = 1) ∧
    (a.costs = [] →
      (validateAll a).issues.filter (fun i => decide (i.category = "costs")) =
        [{ category := "costs", field := "all",
           message := "Cost assumptions section is missing",
           severity := Severity.ERROR }] ∧
      (validateAll a).missing_required.count "costs.all" = 1) ∧
    (a.capital_structure = [] →
      (validateAll a).issues.filter
          (fun i => decide (i.category = "capital_structure")) =
        [{ category := "capital_structure", field := "all",
           message := "Capital structure assumptions section is missing",
           severity := Severity.ERROR }] ∧
      (validateAll a).missing_required.count "capital_structure.all" = 1) := by
  have hfilter : ∀ s : String,
      (validateAll a).issues.filter (fun i => decide (i.category = s)) =
        (validateModelConfigIssues a).filter (fun i => decide (i.category = s)) ++
        (validateRevenueIssues a).filter (fun i => decide (i.category = s)) ++
        (validateCostIssues a).filter (fun i => decide (i.category = s)) ++
        (validateCapitalStructureIssues a).filter (fun i => decide (i.category = s)) ++
        (validateTerminalValueIssues a).filter (fun i => decide (i.category = s)) ++
        (validateWorkingCapitalIssues a).filter (fun i => decide (i.category = s)) ++
        (validateCapexIssues a).filter (fun i => decide (i.category = s)) ++
        (validateScenariosIssues a).filter (fun i => decide (i.category = s)) := by
    intro s
    rw [validateAll_issues, allIssues]
    simp [List.filter_append]
  have hcount : ∀ s : String,
      (validateAll a).missing_required.count s =
        ((validateModelConfigIssues a).filter
            (fun i => decide (i.severity = Severity.ERROR))).countP
          (fun i => i.category ++ "." ++ i.field == s) +
        ((validateRevenueIssues a).filter
            (fun i => decide (i.severity = Severity.ERROR))).countP
          (fun i => i.category ++ "." ++ i.field == s) +
        ((validateCostIssues a).filter
            (fun i => decide (i.severity = Severity.ERROR))).countP
          (fun i => i.category ++ "." ++ i.field == s) +
        ((validateCapitalStructureIssues a).filter
            (fun i => decide (i.severity = Severity.ERROR))).countP
          (fun i => i.category ++ "." ++ i.field == s) +
        ((validateTerminalValueIssues a).filter
            (fun i => decide (i.severity = Severity.ERROR))).countP
          (fun i => i.category ++ "." ++ i.field == s) +
        ((validateWorkingCapitalIssues a).filter
            (fun i => decide (i.severity = Severity.ERROR))).countP
          (fun i => i.category ++ "." ++ i.field == s) +
        ((validateCapexIssues a).filter
            (fun i => decide (i.severity = Severity.ERROR))).countP
          (fun i => i.category ++ "." ++ i.field == s) +
        ((validateScenariosIssues a).filter
            (fun i => decide (i.severity = Severity.ERROR))).countP
          (fun i => i.category ++ "." ++ i.field == s) := by
    intro s
    rw [validateAll_missing_required, List.count_eq_countP, List.countP_map, allIssues]
    simp only [List.filter_append, List.countP_append, Nat.add_assoc]
    rfl
  have hzero : ∀ (s : String) (l : List ValidationIssue) (c : String)
      (fs : List String), (∀ i ∈ l, i.category = c ∧ i.field ∈ fs) →
      (∀ f ∈ fs, ¬(c ++ "." ++ f = s)) →
      (l.filter (fun i => decide (i.severity = Severity.ERROR))).countP
        (fun i => i.category ++ "." ++ i.field == s) = 0 := by
    intro s l c fs hinv hall
    rw [List.countP_eq_zero]
    intro i hi
    have hmem := (List.mem_filter.mp hi).1
    have h2 := hinv i hmem
    simp only [beq_iff_eq]
    exact tag_ne_of i c fs s h2.1 h2.2 hall
  refine ⟨?_, ?_, ?_⟩
  · intro ha
    have hrev : validateRevenueIssues a =
        [{ category := "revenue", field := "all",
           message := "Revenue assumptions section is missing",
           severity := Severity.ERROR }] := by
      simp [validateRevenueIssues, ha]
    constructor
    · rw [hfilter]
      rw [filter_category_nil _ _ _
            (fun i hi => (mem_validateModelConfigIssues a i hi).1) (by decide),
          filter_category_nil _ _ _
            (fun i hi => (mem_validateCostIssues a i hi).1) (by decide),
          filter_category_nil _ _ _
            (fun i hi => (mem_validateCapitalStructureIssues a i hi).1) (by decide),
          filter_category_nil _ _ _
            (fun i hi => (mem_validateTerminalValueIssues a i hi).1) (by decide),
          filter_category_nil _ _ _
            (fun i hi => (mem_validateWorkingCapitalIssues a i hi).1) (by decide),
          filter_category_nil _ _ _
            (fun i hi => (mem_validateCapexIssues a i hi).1) (by decide),
          filter_category_nil _ _ _
            (fun i hi => (mem_validateScenariosIssues a i hi).1) (by decide),
          hrev]
      simp
    · rw [hcount,
          hzero _ _ "model_config" _ (mem_validateModelConfigIssues a) (by decide),
          hzero _ _ "costs" _ (mem_validateCostIssues a) (by decide),
          hzero _ _ "capital_structure" _
            (mem_validateCapitalStructureIssues a) (by decide),
          hzero _ _ "terminal_value" _ (mem_validateTerminalValueIssues a) (by decide),
          hzero _ _ "working_capital" _
            (mem_validateWorkingCapitalIssues a) (by decide),
          hzero _ _ "capex" _ (mem_validateCapexIssues a) (by decide),
          hzero _ _ "scenarios" _
            (fun i hi => ⟨(mem_validateScenariosIssues a i hi).1,
                          (mem_validateScenariosIssues a i hi).2.1⟩) (by decide),
          hrev]
      decide
  · intro ha
    have hcost : validateCostIssues a =
        [{ category := "costs", field := "all",
           message := "Cost assumptions section is missing",
           severity := Severity.ERROR }] := by
      simp [validateCostIssues, ha]
    constructor
    · rw [hfilter]
      rw [filter_category_nil _ _ _
            (fun i hi => (mem_validateModelConfigIssues a i hi).1) (by decide),
          filter_category_nil _ _ _
            (fun i hi => (mem_validateRevenueIssues a i hi).1) (by decide),
          filter_category_nil _ _ _
            (fun i hi => (mem_validateCapitalStructureIssues a i hi).1) (by decide),
          filter_category_nil _ _ _
            (fun i hi => (mem_validateTerminalValueIssues a i hi).1) (by decide),
          filter_category_nil _ _ _
            (fun i hi => (mem_validateWorkingCapitalIssues a i hi).1) (by decide),
          filter_category_nil _ _ _
            (fun i hi => (mem_validateCapexIssues a i hi).1) (by decide),
          filter_category_nil _ _ _
            (fun i hi => (mem_validateScenariosIssues a i hi).1) (by decide),
          hcost]
      simp
    · rw [hcount,
          hzero _ _ "model_config" _ (mem_validateModelConfigIssues a) (by decide),
          hzero _ _ "revenue" _ (mem_validateRevenueIssues a) (by decide),
          hzero _ _ "capital_structure" _
            (mem_validateCapitalStructureIssues a) (by decide),
          hzero _ _ "terminal_value" _ (mem_validateTerminalValueIssues a) (by decide),
          hzero _ _ "working_capital" _
            (mem_validateWorkingCapitalIssues a) (by decide),
          hzero _ _ "capex" _ (mem_validateCapexIssues a) (by decide),
          hzero _ _ "scenarios" _
            (fun i hi => ⟨(mem_validateScenariosIssues a i hi).1,
                          (mem_validateScenariosIssues a i hi).2.1⟩) (by decide),
          hcost]
      decide
  · intro ha
    have hcap : validateCapitalStructureIssues a =
        [{ category := "capital_structure", field := "all",
           message := "Capital structure assumptions section is missing",
           severity := Severity.ERROR }] := by
      simp [validateCapitalStructureIssues, ha]
    constructor
    · rw [hfilter]
      rw [filter_category_nil _ _ _
            (fun i hi => (mem_validateModelConfigIssues a i hi).1) (by decide),
          filter_category_nil _ _ _
            (fun i hi => (mem_validateRevenueIssues a i hi).1) (by decide),
          filter_category_nil _ _ _
            (fun i hi => (mem_validateCostIssues a i hi).1) (by decide),
          filter_category_nil _ _ _
            (fun i hi => (mem_validateTerminalValueIssues a i hi).1) (by decide),
          filter_category_nil _ _ _
            (fun i hi => (mem_validateWorkingCapitalIssues a i hi).1) (by decide),
          filter_category_nil _ _ _
            (fun i hi => (mem_validateCapexIssues a i hi).1) (by decide),
          filter_category_nil _ _ _
            (fun i hi => (mem_validateScenariosIssues a i hi).1) (by decide),
          hcap]
      simp
    · rw [hcount,
          hzero _ _ "model_config" _ (mem_validateModelConfigIssues a) (by decide),
          hzero _ _ "revenue" _ (mem_validateRevenueIssues a) (by decide),
          hzero _ _ "costs" _ (mem_validateCostIssues a) (by decide),
          hzero _ _ "terminal_value" _ (mem_validateTerminalValueIssues a) (by decide),
          hzero _ _ "working_capital" _
            (mem_validateWorkingCapitalIssues a) (by decide),
          hzero _ _ "capex" _ (mem_validateCapexIssues a) (by decide),
          hzero _ _ "scenarios" _
            (fun i hi => ⟨(mem_validateScenariosIssues a i hi).1,
                          (mem_validateScenariosIssues a i hi).2.1⟩) (by decide),
          hcap]
      decide

/-- Witness for C10 at an assumption set with an empty revenue
section. -/
theorem c10_witness :
    (validateAll { exBase with revenue := [] }).missing_required.count
      "revenue.all" = 1 :=
  ((c10_missing_sections { exBase with revenue := [] }).1 rfl).2

/-- Counterexample to claim C8 as stated: with risk_free_rate present but
exactly 0 (premium 5 percent, beta 1, perpetuity method, growth rate 10
percent above the claimed implied rate of 5 percent) the implied rate is
not computed and no consistency ERROR is recorded, although all three
inputs are present. -/
theorem c8_counterexample :
    exZeroRfUnit.capital_structure.lookup "risk_free_rate" = some 0 ∧
    exZeroRfUnit.capital_structure.lookup "equity_risk_premium" = some (1/20) ∧
    exZeroRfUnit.capital_structure.lookup "beta" = some 1 ∧
    exZeroRfUnit.model_config.terminal_method = some "perpetuity" ∧
    exZeroRfUnit.terminal_value.lookup "perpetuity_growth_rate" = some (1/10) ∧
    calculateImpliedWacc exZeroRfUnit = none ∧
    ∀ i ∈ (validateAll exZeroRfUnit).issues,
      ¬(i.category = "terminal_value" ∧ i.field = "perpetuity_growth_rate" ∧
        i.severity = Severity.ERROR) := by
  refine ⟨rfl, rfl, rfl, rfl, rfl, ?_, ?_⟩
  · norm_num [calculateImpliedWacc, truthy, List.lookup, exZeroRfUnit, exBase]
  · rw [validateAll_issues]
    simp [allIssues, validateModelConfigIssues, validateRevenueIssues,
      validateCostIssues, validateCapitalStructureIssues, validateTerminalValueIssues,
      validateWorkingCapitalIssues, validateCapexIssues, validateScenariosIssues,
      checkRange, reasonableRanges, calculateImpliedWacc, projectionYearsOr5,
      truthy, pyOr, strIn, List.lookup, exZeroRfUnit, exBase,
      growthKey1, growthKey2, growthKey3, growthKey4, growthKey5]
    norm_num
    decide

/-- Claim C8 as amended: the implied discount rate is computed if and
only if risk_free_rate, equity_risk_premium and beta are all present AND
nonzero in capital_structure (Python truthiness); when it is not
computed, a supplied perpetuity growth rate receives no
consistency ERROR. -/
theorem c8_wacc_gating_amended (a : Assumptions) :
    ((calculateImpliedWacc a).isSome = true ↔
      ((a.capital_structure.lookup "risk_free_rate" ≠ none ∧
        a.capital_structure.lookup "risk_free_rate" ≠ some 0) ∧
       (a.capital_structure.lookup "equity_risk_premium" ≠ none ∧
        a.capital_structure.lookup "equity_risk_premium" ≠ some 0) ∧
       (a.capital_structure.lookup "beta" ≠ none ∧
        a.capital_structure.lookup "beta" ≠ some 0))) ∧
    (∀ pg : ℚ, a.terminal_value.lookup "perpetuity_growth_rate" = some pg →
      calculateImpliedWacc a = none →
      ∀ i ∈ (validateAll a).issues,
        ¬(i.category = "terminal_value" ∧ i.field = "perpetuity_growth_rate" ∧
          i.severity = Severity.ERROR)) := by
  constructor
  · simp only [calculateImpliedWacc]
    split
    · rename_i h
      rcases h with ⟨h1, h2, h3⟩
      constructor
      · intro _
        exact ⟨(truthy_iff _).mp h1, (truthy_iff _).mp h2, (truthy_iff _).mp h3⟩
      · intro _
        split <;> rfl
    · rename_i h
      simp only [Option.isSome_none, Bool.false_eq_true, false_iff]
      intro hc
      exact h ⟨(truthy_iff _).mpr hc.1, (truthy_iff _).mpr hc.2.1,
               (truthy_iff _).mpr hc.2.2⟩
  · intro pg hpg hw i hmem hbad
    obtain ⟨hcat, hfld, hsev⟩ := hbad
    rw [validateAll_issues, mem_allIssues_terminal_value a i hcat] at hmem
    simp only [validateTerminalValueIssues, hpg, hw, List.mem_append] at hmem
    rcases hmem with h | h
    · split at h
      · rw [List.append_nil] at h
        have := checkRange_subset _ _ _ _ i h
        rw [this.2.2] at hsev
        simp at hsev
      · simp at h
    · split at h
      · split at h
        · simp_all
        · have := checkRange_subset _ _ _ _ i h
          rw [this.2.2] at hsev
          simp at hsev
      · simp at h

/-- Witness for C8: the amended theorem applied at the zero-risk-free
example. -/
theorem c8_witness :
    ∀ i ∈ (validateAll exZeroRf).issues,
      ¬(i.category = "terminal_value" ∧ i.field = "perpetuity_growth_rate" ∧
        i.severity = Severity.ERROR) :=
  (c8_wacc_gating_amended exZeroRf).2 (1/10) rfl
    (by norm_num [calculateImpliedWacc, truthy, List.lookup, exZeroRf, exBase])

/-- Counterexample to claim C1 as stated: risk_free_rate is present (with
value 0), the premium and beta are present, the terminal method is
perpetuity, and the supplied growth rate of 10 percent is at least the
claimed implied rate `0 + 1.1 * 0.05 = 0.055`, yet the validator records
no ERROR on terminal_value.perpetuity_growth_rate (the source treats the
zero rate as absent). -/
theorem c1_counterexample :
    exZeroRf.capital_structure.lookup "risk_free_rate" = some 0 ∧
    exZeroRf.capital_structure.lookup "equity_risk_premium" = some (1/20) ∧
    exZeroRf.capital_structure.lookup "beta" = some (11/10) ∧
    exZeroRf.model_config.terminal_method = some "perpetuity" ∧
    exZeroRf.terminal_value.lookup "perpetuity_growth_rate" = some (1/10) ∧
    exZeroRf.capital_structure.lookup "target_debt_to_equity" = none ∧
    ((1 : ℚ)/10 ≥ 0 + (11/10) * (1/20)) ∧
    ∀ i ∈ (validateAll exZeroRf).issues,
      ¬(i.category = "terminal_value" ∧ i.field = "perpetuity_growth_rate" ∧
        i.severity = Severity.ERROR) := by
  refine ⟨rfl, rfl, rfl, rfl, rfl, rfl, by norm_num, ?_⟩
  rw [validateAll_issues]
  simp [allIssues, validateModelConfigIssues, validateRevenueIssues,
    validateCostIssues, validateCapitalStructureIssues, validateTerminalValueIssues,
    validateWorkingCapitalIssues, validateCapexIssues, validateScenariosIssues,
    checkRange, reasonableRanges, calculateImpliedWacc, projectionYearsOr5,
    truthy, pyOr, strIn, List.lookup, exZeroRf, exBase,
    growthKey1, growthKey2, growthKey3, growthKey4, growthKey5]
  norm_num
  decide

/-- Claim C1 as amended: when risk_free_rate, equity_risk_premium and
beta are present AND NONZERO, terminal_method is perpetuity or both, and
perpetuity_growth_rate is present, the implied discount rate equals the
claimed CAPM/WACC formula, and the validator records an ERROR on
terminal_value.perpetuity_growth_rate exactly when that implied rate is
NONZERO and the growth rate is at least it.  In particular with beta 1.1,
risk-free rate 4 percent, premium 5 percent and no target leverage the
implied rate is 0.095, a growth rate of 3 percent produces no such ERROR
and one of 10 percent produces one. -/
theorem c1_perpetuity_error_amended (a : Assumptions) (rf erp beta pg : ℚ)
    (hrf : a.capital_structure.lookup "risk_free_rate" = some rf) (hrf0 : rf ≠ 0)
    (herp : a.capital_structure.lookup "equity_risk_premium" = some erp)
    (herp0 : erp ≠ 0)
    (hbeta : a.capital_structure.lookup "beta" = some beta) (hbeta0 : beta ≠ 0)
    (hmethod : a.model_config.terminal_method = some "perpetuity" ∨
               a.model_config.terminal_method = some "both")
    (hpg : a.terminal_value.lookup "perpetuity_growth_rate" = some pg) :
    calculateImpliedWacc a = some (impliedRateSpec a rf erp beta) ∧
    ((∃ i ∈ (validateAll a).issues, i.category = "terminal_value" ∧
        i.field = "perpetuity_growth_rate" ∧ i.severity = Severity.ERROR) ↔
      (impliedRateSpec a rf erp beta ≠ 0 ∧ pg ≥ impliedRateSpec a rf erp beta)) ∧
    calculateImpliedWacc exBase = some (19/200) ∧
    (∀ i ∈ (validateAll exBase).issues,
      ¬(i.category = "terminal_value" ∧ i.field = "perpetuity_growth_rate" ∧
        i.severity = Severity.ERROR)) ∧
    (∃ i ∈ (validateAll exHighGrowth).issues,
      i.category = "terminal_value" ∧ i.field = "perpetuity_growth_rate" ∧
        i.severity = Severity.ERROR) := by
  have hwacc := wacc_eq_spec a rf erp beta hrf hrf0 herp herp0 hbeta hbeta0
  refine ⟨hwacc, ?_, ?_, ?_, ?_⟩
  · constructor
    · rintro ⟨i, hmem, hcat, hfld, hsev⟩
      rw [validateAll_issues, mem_allIssues_terminal_value a i hcat] at hmem
      simp only [validateTerminalValueIssues, hpg, hwacc, List.mem_append] at hmem
      rcases hmem with h | h
      · rw [if_pos hmethod] at h
        simp only [List.mem_append] at h
        rcases h with h | h
        · have := checkRange_subset _ _ _ _ i h
          rw [this.2.2] at hsev
          simp at hsev
        · split at h
          · rename_i hcond
            exact hcond
          · simp at h
      · split at h
        · split at h
          · simp_all
          · have := checkRange_subset _ _ _ _ i h
            rw [this.2.2] at hsev
            simp at hsev
        · simp at h
    · intro hcond
      refine ⟨{ category := "terminal_value", field := "perpetuity_growth_rate",
                message := "Growth rate must be less than WACC",
                severity := Severity.ERROR }, ?_, rfl, rfl, rfl⟩
      rw [validateAll_issues]
      refine (mem_allIssues_terminal_value a _ rfl).mpr ?_
      simp only [validateTerminalValueIssues, hpg, hwacc, List.mem_append]
      left
      rw [if_pos hmethod]
      simp [if_pos hcond]
  · simp [calculateImpliedWacc, truthy, List.lookup, exBase]
    norm_num
  · rw [validateAll_issues]
    simp [allIssues, validateModelConfigIssues, validateRevenueIssues,
      validateCostIssues, validateCapitalStructureIssues, validateTerminalValueIssues,
      validateWorkingCapitalIssues, validateCapexIssues, validateScenariosIssues,
      checkRange, reasonableRanges, calculateImpliedWacc, projectionYearsOr5,
      truthy, pyOr, strIn, List.lookup, exBase,
      growthKey1, growthKey2, growthKey3, growthKey4, growthKey5]
    norm_num
  · rw [validateAll_issues]
    simp [allIssues, validateModelConfigIssues, validateRevenueIssues,
      validateCostIssues, validateCapitalStructureIssues, validateTerminalValueIssues,
      validateWorkingCapitalIssues, validateCapexIssues, validateScenariosIssues,
      checkRange, reasonableRanges, calculateImpliedWacc, projectionYearsOr5,
      truthy, pyOr, strIn, List.lookup, exHighGrowth, exBase,
      growthKey1, growthKey2, growthKey3, growthKey4, growthKey5]
    norm_num

/-- Witness for C1: the amended theorem applied at the high-growth
example makes the consistency ERROR appear. -/
theorem c1_witness :
    ∃ i ∈ (validateAll exHighGrowth).issues,
      i.category = "terminal_value" ∧ i.field = "perpetuity_growth_rate" ∧
        i.severity = Severity.ERROR :=
  (c1_perpetuity_error_amended exHighGrowth (1/25) (1/20) (11/10) (1/10)
      rfl (by norm_num) rfl (by norm_num) rfl (by norm_num)
      (Or.inl rfl) rfl).2.2.2.2

/-- Counterexample to claim C5 as stated: with projection_years 8 the
present revenue_growth_y6 value 0.9, far above the 0.5 bound, is never
range-checked and yields no issue (the loop is capped at year 5); and with
projection_years 2 the absent revenue_growth_y3 yields no ERROR (so years
1..3 are not required unconditionally). -/
theorem c5_counterexample :
    projectionYearsOr5 exYearSix = 8 ∧
    exYearSix.revenue.lookup "revenue_growth_y6" = some (9/10) ∧
    ((9 : ℚ)/10 > 1/2) ∧
    (∀ i ∈ (validateAll exYearSix).issues, i.field ≠ "revenue_growth_y6") ∧
    projectionYearsOr5 exTwoYears = 2 ∧
    exTwoYears.revenue.lookup "revenue_growth_y3" = none ∧
    (∀ i ∈ (validateAll exTwoYears).issues, i.field ≠ "revenue_growth_y3") := by
  refine ⟨rfl, rfl, by norm_num, ?_, rfl, rfl, ?_⟩
  · rw [validateAll_issues]
    simp [allIssues, validateModelConfigIssues, validateRevenueIssues,
      validateCostIssues, validateCapitalStructureIssues, validateTerminalValueIssues,
      validateWorkingCapitalIssues, validateCapexIssues, validateScenariosIssues,
      checkRange, reasonableRanges, calculateImpliedWacc, projectionYearsOr5,
      truthy, pyOr, strIn, List.lookup, exYearSix, exBase,
      growthKey1, growthKey2, growthKey3, growthKey4, growthKey5]
    norm_num
  · rw [validateAll_issues]
    simp [allIssues, validateModelConfigIssues, validateRevenueIssues,
      validateCostIssues, validateCapitalStructureIssues, validateTerminalValueIssues,
      validateWorkingCapitalIssues, validateCapexIssues, validateScenariosIssues,
      checkRange, reasonableRanges, calculateImpliedWacc, projectionYearsOr5,
      truthy, pyOr, strIn, List.lookup, exTwoYears, exBase,
      growthKey1, growthKey2, growthKey3, growthKey4, growthKey5]
    norm_num

/-- Claim C5 as amended: for a non-empty revenue section and each loop
field revenue_growth_y{i} with i in 1..5, the required-field ERROR is
recorded exactly when i is at most `min(projection_years, 5)` (with
projection_years defaulting to 5 when absent or zero) and i is at most 3
and the field is absent; the out-of-range WARNING is recorded exactly
when i is within the bound and the present value is strictly outside
[-0.20, 0.50]; and no revenue-category issue ever names any other
revenue-growth field, so years beyond 5 are never checked. -/
theorem c5_growth_loop_amended (a : Assumptions) (hne : a.revenue ≠ [])
    (i : Int) (key : String)
    (hik : (i, key) ∈ ([((1 : Int), "revenue_growth_y1"), (2, "revenue_growth_y2"),
                        (3, "revenue_growth_y3"), (4, "revenue_growth_y4"),
                        (5, "revenue_growth_y5")] : List (Int × String))) :
    ((∃ iss ∈ (validateAll a).issues, iss.category = "revenue" ∧
        iss.field = key ∧ iss.severity = Severity.ERROR) ↔
      (i ≤ min (projectionYearsOr5 a) 5 ∧ i ≤ 3 ∧ a.revenue.lookup key = none)) ∧
    ((∃ iss ∈ (validateAll a).issues, iss.category = "revenue" ∧
        iss.field = key ∧ iss.severity = Severity.WARNING) ↔
      (i ≤ min (projectionYearsOr5 a) 5 ∧
        ∃ v, a.revenue.lookup key = some v ∧ (v < -(1/5) ∨ v > 1/2))) ∧
    (∀ iss ∈ (validateAll a).issues, iss.category = "revenue" →
      iss.field ∈ ["all", "revenue_growth_y1", "revenue_growth_y2",
                   "revenue_growth_y3", "revenue_growth_y4", "revenue_growth_y5",
                   "terminal_growth_rate"]) := by
  have h3 : ∀ iss ∈ (validateAll a).issues, iss.category = "revenue" →
      iss.field ∈ ["all", "revenue_growth_y1", "revenue_growth_y2",
                   "revenue_growth_y3", "revenue_growth_y4", "revenue_growth_y5",
                   "terminal_growth_rate"] := by
    intro iss hmem hcat
    rw [validateAll_issues, mem_allIssues_revenue a iss hcat] at hmem
    exact (mem_validateRevenueIssues a iss hmem).2
  fin_cases hik <;>
    exact ⟨(revenue_growth_issue_spec a hne _ _ (by decide) (by decide) (by decide)).1,
           (revenue_growth_issue_spec a hne _ _ (by decide) (by decide) (by decide)).2,
           h3⟩

/-- Witness for C5: with projection_years 2 the absent
revenue_growth_y3 produces no ERROR, by the amended characterization. -/
theorem c5_witness :
    ¬∃ iss ∈ (validateAll exTwoYears).issues, iss.category = "revenue" ∧
      iss.field = "revenue_growth_y3" ∧ iss.severity = Severity.ERROR := by
  intro hex
  have hc := ((c5_growth_loop_amended exTwoYears (by decide) 3 "revenue_growth_y3"
      (by decide)).1).mp hex
  rw [show projectionYearsOr5 exTwoYears = 2 from rfl] at hc
  exact absurd hc.1 (by decide)

end DCF
